import Mathlib

/-!
Verification of the Knowledge Retrieval Pipeline of AtlasV0.2.

Shallow embedding of:
  * the retrieval orchestrator (src/app/api/knowledgebase/route.ts, `retrieveContext`),
  * the embedding service (src/lib/service/openai.ts: `embedMessage`,
    `embedDocument`, `embedChunk`, `transformObjectValues`),
  * the Qdrant vector-store provider (src/lib/service/qdrant.ts: `query`,
    `deleteFromVectorDb`),
  * the helper `toAscii` (src/lib/utils.ts).

Fallible external calls (the embedding provider, the vector store, the
reranker) are injected as `Except` outcomes or as pure functions, so the
definitions capture exactly the control flow of the TypeScript source.
-/

namespace Atlas

/-! ### Stream events (src/app/api/knowledgebase/route.ts)

`sendUpdate(status, message, controller)` enqueues one `{ status, message }`
object on the SSE stream; we model the stream as the list of events enqueued,
in order. -/

structure StreamEvent where
  status : String
  message : String
deriving DecidableEq

/-- Body of the `try` block of `retrieveContext` (route.ts lines 75-113).
Stage outcomes are injected: `embedR` is the outcome of `embedMessage`,
`queryR` the outcome of provider resolution plus `vectorDbProvider.query`
(its `context` field on success), `rerankR` the outcome of `rerank`.
Returns the events written before the block ended, and the uncaught
exception message if one was thrown. The reranker is consulted only when
the returned context is non-empty, exactly as in the source. -/
def retrieveContextBody (message : String) (embedR : Except String Unit)
    (queryR : Except String (List String)) (rerankR : Except String String) :
    List StreamEvent × Option String :=
  let ev0 : StreamEvent := ⟨"Retrieving context", message⟩
  match embedR with
  | .error e => ([ev0], some e)
  | .ok _ =>
    let ev1 : StreamEvent :=
      ⟨"Embedding complete", "Message embedding complete for: " ++ message⟩
    match queryR with
    | .error e => ([ev0, ev1], some e)
    | .ok context =>
      let ev2 : StreamEvent :=
        ⟨"Query complete", "Query results retrieved from Pinecone."⟩
      if context.length > 0 then
        match rerankR with
        | .error e => ([ev0, ev1, ev2], some e)
        | .ok rerankingContext =>
          ([ev0, ev1, ev2, ⟨"Reranking complete", rerankingContext⟩], none)
      else
        ([ev0, ev1, ev2, ⟨"No context", "No context found for the message."⟩], none)

/-- The full `retrieveContext` (route.ts lines 68-125): the `try` body,
then the `catch` clause (which appends one `Error` event carrying the
exception message and swallows the exception), then the `finally` clause
(which always appends the terminal `Done` event). -/
def retrieveContext (message : String) (embedR : Except String Unit)
    (queryR : Except String (List String)) (rerankR : Except String String) :
    List StreamEvent :=
  let body := retrieveContextBody message embedR queryR rerankR
  let afterCatch :=
    match body.2 with
    | some e => body.1 ++ [⟨"Error", "Error retrieving context: " ++ e⟩]
    | none => body.1
  afterCatch ++ [⟨"Done", "Processing complete for: " ++ message⟩]

/-- Projection of a session's event list to its status sequence. -/
def eventStatuses (events : List StreamEvent) : List String :=
  events.map StreamEvent.status

/-! ### JavaScript values (metadata payloads)

Chunk metadata is a JS object `Record<string, any>`; we embed the JS value
universe needed by `transformObjectValues` and the citation logic. -/

inductive JsValue where
  | str (s : String)
  | num (n : Int)
  | bool (b : Bool)
  | null
  | arr (items : List JsValue)
  | obj (entries : List (String × JsValue))

/-- JS `typeof value === 'object' && value !== null`: true for plain objects
and for arrays, false for strings, numbers, booleans and `null`. -/
def JsValue.isObjectLike : JsValue → Bool
  | .arr _ => true
  | .obj _ => true
  | _ => false

/-- JS `Object.entries`: the own enumerable entries of an object, or the
index/element pairs of an array; primitives have none. -/
def JsValue.entries : JsValue → List (String × JsValue)
  | .arr items => (items.enum).map (fun p => (toString p.1, p.2))
  | .obj es => es
  | _ => []

/-- JS truthiness, used by `chunk.metadata.page_number ? ... : ''`. -/
def JsValue.truthy : JsValue → Bool
  | .str s => !(s == "")
  | .num n => !(n == 0)
  | .bool b => b
  | .null => false
  | .arr _ => true
  | .obj _ => true

/-- JS string interpolation of a value (template-literal coercion), used for
`, Page ${chunk.metadata.page_number}`. -/
def JsValue.display : JsValue → String
  | .str s => s
  | .num n => toString n
  | .bool b => if b then "true" else "false"
  | .null => "null"
  | .arr _ => ""
  | .obj _ => ""

/-! ### Embedding service (src/lib/service/openai.ts) -/

/-- The `transformObjectValues` helper (openai.ts lines 23-39), with the
external builtin `JSON.stringify` injected as `stringify`. An entry whose
value is object-like (the JS test `typeof value === 'object' && value !==
null`) is replaced by the array of strings
`innerKey ++ ":" ++ stringify innerValue` over its entries; every other
entry passes through unchanged. The input entry list comes from
`Object.entries` of a `Record`, so its keys are distinct and the
accumulator-based `reduce` of the source is the entrywise map below. -/
def transformObjectValues (stringify : JsValue → String)
    (m : List (String × JsValue)) : List (String × JsValue) :=
  m.map fun kv =>
    if kv.2.isObjectLike then
      (kv.1, .arr ((kv.2.entries).map fun p => .str (p.1 ++ ":" ++ stringify p.2)))
    else
      kv

/-- The `toAscii` helper (src/lib/utils.ts lines 79-81):
`str.replace(/[^\x00-\x7F]/g, '')` removes every character outside the
ASCII range 0x00-0x7F. -/
def toAscii (s : String) : String :=
  String.mk (s.data.filter (fun c => c.toNat ≤ 0x7F))

/-- The composite string `embedMessage` actually sends to the embedding
provider (openai.ts line 46): the current date/time, the user id and the
message, never the message alone. `new Date().toLocaleString()` is injected
as `dateStr`; the trailing `${''}` of the template literal is empty. -/
def messageToEmbed (dateStr userId content : String) : String :=
  "Date: " ++ dateStr ++ ". User: " ++ userId ++ ". Message: " ++ content ++
    ". Metadata: " ++ ""

/-- The value returned by `embedMessage` (openai.ts lines 62-65): an object
with exactly an `id` field and a `values` field and nothing else. `V` is the
opaque type of the provider's embedding vector. -/
structure MessageEmbedding (V : Type) where
  id : String
  values : V
deriving DecidableEq

/-- Successful path of `embedMessage` (openai.ts lines 41-82). The freshly
generated `uuidv4()` and the provider call `openai.embeddings.create` are
injected (`freshUuid`, `provider`); the returned object carries the fresh
UUID as `id` and the provider's vector for the composite input string as
`values`, with no metadata field. -/
def embedMessage {V : Type} (freshUuid : String) (dateStr userId content : String)
    (provider : String → V) : MessageEmbedding V :=
  { id := freshUuid
    values := provider (messageToEmbed dateStr userId content) }

/-- The `{ name, key, url }` of a `KnowledgebaseFile` as consumed by
`embedDocument` (external document/file collaborator, read-only). -/
structure FileInfo where
  name : String
  key : String
  url : String
deriving DecidableEq

/-- A `ParsedElement` chunk as consumed by `embedChunk`: its text and its
provider-supplied metadata object. -/
structure ParsedElement where
  text : String
  metadata : List (String × JsValue)

/-- An embedding produced by `embedChunk` (openai.ts lines 183-187):
id, vector values, flattened metadata. -/
structure ChunkEmbedding (V : Type) where
  id : String
  values : V
  metadata : List (String × JsValue)

/-- JS property access `chunk.metadata.page_number`: the value of the
first entry with that key, or `undefined` (here `JsValue.null`-like absence
modelled as `Option`). -/
def metadataLookup (m : List (String × JsValue)) (key : String) : Option JsValue :=
  (m.find? (fun kv => kv.1 == key)).map (fun kv => kv.2)

/-- The `, Page ${...}` fragment of the citation (openai.ts lines 169-171):
present only when `chunk.metadata.page_number` is defined and truthy. -/
def pageInfo (chunk : ParsedElement) : String :=
  match metadataLookup chunk.metadata "page_number" with
  | some v => if v.truthy then ", Page " ++ v.display else ""
  | none => ""

/-- Successful path of `embedChunk` (openai.ts lines 145-187), after the
provider call returned `responseEmbedding`. Builds the stable id from
the ASCII-normalized file name, the file key and the 1-based chunk index;
flattens the chunk metadata with `transformObjectValues`; and attaches the
citation and provenance fields, the spread `{...transformedMetadata, text,
userId, url, citation}` rendered as the transformed entries followed by the
four fixed entries (which shadow same-named earlier keys on JS lookup). -/
def embedChunk {V : Type} (stringify : JsValue → String) (file : FileInfo)
    (userId : String) (chunk : ParsedElement) (index : Nat)
    (responseEmbedding : V) : ChunkEmbedding V :=
  let transformedMetadata := transformObjectValues stringify chunk.metadata
  let newId := toAscii file.name ++ "#" ++ file.key ++ "#" ++ toString (index + 1)
  let citation := "[" ++ file.name ++ pageInfo chunk ++ "](" ++ file.url ++ ")"
  { id := newId
    values := responseEmbedding
    metadata := transformedMetadata ++
      [("text", .str chunk.text), ("userId", .str userId),
       ("url", .str file.url), ("citation", .str citation)] }

/-- One log line written by the result-processing loop of `embedDocument`
for a failed chunk (openai.ts lines 122-124): carries the 1-based chunk
index `i + 1` and the rejection reason. -/
def chunkFailureLog (i : Nat) (reason : String) : String :=
  "Embedding failed for chunk " ++ toString (i + 1) ++ ": " ++ reason

/-- The result-processing loop of `embedDocument` (openai.ts lines 115-126)
over the `Promise.allSettled` outcome list: fulfilled results are collected
in order into `successfulEmbeddings`, each rejected result produces one
error-log line with its chunk index and reason. `i` is the loop counter. -/
def processEmbeddingResults {E : Type} (i : Nat) :
    List (Except String E) → List E × List String
  | [] => ([], [])
  | .ok v :: rest =>
    let tail := processEmbeddingResults (i + 1) rest
    (v :: tail.1, tail.2)
  | .error reason :: rest =>
    let tail := processEmbeddingResults (i + 1) rest
    (tail.1, chunkFailureLog i reason :: tail.2)

/-- The `embedDocument` batch coordinator (openai.ts lines 84-143).
`setup` is the outcome of scheduling the batch (`chunks.map` /
`limiter.schedule` / `Promise.allSettled`): on setup failure the `catch`
block rethrows, so the whole call fails; otherwise `Promise.allSettled`
never rejects and the per-chunk outcomes (one `Except` per chunk, in chunk
order) are folded by the processing loop — the call returns the successful
embeddings plus the failure log, and never raises for individual chunk
failures. -/
def embedDocument {E : Type}
    (setup : Except String (List (Except String E))) :
    Except String (List E × List String) :=
  match setup with
  | .error e => .error e
  | .ok results => .ok (processEmbeddingResults 0 results)

/-! ### Rate-limiter gating (openai.ts lines 41-55, 92-113)

We record, per embedding call, the sequence of gating steps it takes before
reaching the provider. `embedDocument` constructs one fresh `Bottleneck`
limiter per invocation (lines 92-98) — `limiterId` names that instance —
and wraps every chunk call in `limiter.schedule` (line 111); `embedMessage`
calls `openai.embeddings.create` directly (line 48) with no limiter. -/

inductive EmbedStep where
  | limiterGate (limiterId : Nat) (reservoir refreshAmount refreshIntervalMs
      minTimeMs maxConcurrent : Nat)
  | providerCall (input : String)
deriving DecidableEq

/-- Whether a call's step trace passes through any rate-limiter gate. -/
def passesThroughGate (steps : List EmbedStep) : Bool :=
  steps.any fun s =>
    match s with
    | .limiterGate _ _ _ _ _ _ => true
    | .providerCall _ => false

/-- Step trace of `embedMessage` (openai.ts lines 41-55): one direct
provider call, no limiter. -/
def embedMessageSteps (dateStr userId content : String) : List EmbedStep :=
  [.providerCall (messageToEmbed dateStr userId content)]

/-- Step trace of one chunk call inside `embedDocument` (openai.ts lines
109-112): `limiter.schedule` on the invocation's own Bottleneck instance —
configured with reservoir 5000 refilled in full every 60000 ms, minimum
spacing 12 ms, concurrency ceiling 50 (lines 92-98) — then the provider
call on the chunk text. -/
def embedChunkSteps (limiterId : Nat) (chunkText : String) : List EmbedStep :=
  [.limiterGate limiterId 5000 5000 60000 12 50, .providerCall chunkText]

/-- Step traces of all chunk calls of one `embedDocument` invocation, which
owns the single fresh limiter instance `limiterId`. -/
def embedDocumentSteps (limiterId : Nat) (chunkTexts : List String) :
    List (List EmbedStep) :=
  chunkTexts.map (embedChunkSteps limiterId)

/-! ### Per-call timeout and cancellation (openai.ts lines 145-160) -/

/-- Timeout/cancellation set-up of one embedding call: the timeout in
milliseconds, if any, and the `AbortController` instance owned by the call,
if any. -/
structure EmbedCallPlan where
  timeoutMs : Option Nat
  controllerId : Option Nat
deriving DecidableEq

/-- `embedChunk` for the chunk at `index` creates its own fresh
`AbortController` and arms a 15000 ms timer that aborts that controller
(openai.ts lines 146-147); the controller's signal is passed to the
provider call (lines 157-159). -/
def embedChunkPlan (index : Nat) : EmbedCallPlan :=
  { timeoutMs := some 15000, controllerId := some index }

/-- `embedMessage` (openai.ts lines 41-55) issues its provider call with no
timeout and no abort controller. -/
def embedMessagePlan : EmbedCallPlan :=
  { timeoutMs := none, controllerId := none }

/-- A JS `Error` as observed by the `catch` of `embedChunk`: its `name`
(`'AbortError'` on timeout-triggered abort) and its message. -/
structure JsError where
  name : String
  message : String
deriving DecidableEq

/-- Log line of the `catch` block of `embedChunk` (openai.ts lines
188-198): a timeout (`error.name === 'AbortError'`) is logged as a timed-out
chunk, any other failure as a provider error with its message. -/
def chunkErrorLog (fileName : String) (index : Nat) (e : JsError) : String :=
  if e.name == "AbortError" then
    "Embedding request for chunk " ++ toString (index + 1) ++ " timed out."
  else
    "Failed to embed chunk " ++ toString (index + 1) ++ " for file: " ++
      fileName ++ ". Error: " ++ e.message

/-! ### Qdrant vector-store provider (src/lib/service/qdrant.ts) -/

/-- The query result shape `{ context: [...] }` the orchestrator consumes;
passages are kept opaque as strings. -/
structure QueryResult where
  context : List String
deriving DecidableEq

/-- The Qdrant provider's `query` (qdrant.ts lines 46-67): it unconditionally
throws `Error('query function is not implemented')`; the `catch` logs and
rethrows, so every call fails with that error and no call returns a result. -/
def query (userId : String) (embeddingsLength : Nat) (topK : Nat) :
    Except String QueryResult :=
  let _ := userId
  let _ := embeddingsLength
  let _ := topK
  .error "query function is not implemented"

/-- One condition of a Qdrant `must` filter as built by
`deleteFromVectorDb`: a `key` and the `match.value`, which is absent
(`none`) when the corresponding field of the file was `undefined`. -/
inductive QdrantCondition where
  | matchValue (key : String) (value : Option String)
deriving DecidableEq

/-- A Qdrant filter of `must` conditions. -/
structure QdrantFilter where
  must : List QdrantCondition
deriving DecidableEq

/-- Observable outcome of `deleteFromVectorDb`: either the validation error
thrown before any network call, or the network delete request with the
filter it sends. -/
inductive DeleteOutcome where
  | validationError (message : String)
  | networkDelete (filter : QdrantFilter)
deriving DecidableEq

/-- `deleteFromVectorDb` (qdrant.ts lines 69-126). `name` and `url` are the
destructured file fields, `none` when absent/undefined (JS-falsy). When both
are missing it throws `'No filename or URL provided for deletion.'` before
reaching `client.delete`; otherwise it calls `client.delete` with a filter
whose `must` list always contains BOTH a name condition and a url condition,
each carrying whatever value (possibly undefined) the file had. -/
def deleteFromVectorDb (name url : Option String) : DeleteOutcome :=
  if name = none ∧ url = none then
    .validationError "No filename or URL provided for deletion."
  else
    .networkDelete ⟨[.matchValue "name" name, .matchValue "url" url]⟩

/-- Payload of a stored vector point, as a flat key/value view for filter
evaluation. -/
structure PointPayload where
  fields : List (String × String)
deriving DecidableEq

/-- Modelled from the spec: Qdrant match-condition semantics for the external
vector-store collaborator (§6) — a `match` condition holds of a point when
the payload field at `key` equals the condition's value; a condition whose
value is absent (`undefined`) matches no stored value. -/
def conditionMatches (p : PointPayload) : QdrantCondition → Bool
  | .matchValue key value =>
    match value with
    | some s => (p.fields.lookup key) == some s
    | none => false

/-- Modelled from the spec: Qdrant `must` filter semantics — a point is
selected (and deleted) only when every condition in `must` holds of it. -/
def filterMatches (p : PointPayload) (f : QdrantFilter) : Bool :=
  f.must.all (conditionMatches p)

/-- First character of a string, used to tell log lines apart. -/
def firstChar (s : String) : Option Char :=
  s.data.head?

/-! ### Theorems -/

/-- The first character of a concatenation is the first character of the
left part when the left part is non-empty. -/
theorem firstChar_append (s t : String) :
    firstChar (s ++ t) = (firstChar s).or (firstChar t) := by
  simp only [firstChar, String.data_append]
  cases s.data with
  | nil => rfl
  | cons c cs => rfl

/-- C1: For every retrieval session, the status sequence written to the
stream is exactly [Retrieving context, Embedding complete, Query complete,
Reranking complete, Done] when the vector-store query returns non-empty
context; with empty context the Reranking-complete event is replaced by a
No-context event; and when a stage fails, the sequence is the events of the
stages completed before the failure, then an Error event, then Done. -/
theorem retrieveContext_event_sequence (message : String)
    (embedR : Except String Unit) (queryR : Except String (List String))
    (rerankR : Except String String) :
    eventStatuses (retrieveContext message embedR queryR rerankR) =
      match embedR with
      | .error _ => ["Retrieving context", "Error", "Done"]
      | .ok _ =>
        match queryR with
        | .error _ =>
          ["Retrieving context", "Embedding complete", "Error", "Done"]
        | .ok context =>
          if context.length > 0 then
            match rerankR with
            | .error _ =>
              ["Retrieving context", "Embedding complete", "Query complete",
                "Error", "Done"]
            | .ok _ =>
              ["Retrieving context", "Embedding complete", "Query complete",
                "Reranking complete", "Done"]
          else
            ["Retrieving context", "Embedding complete", "Query complete",
              "No context", "Done"] := by
  cases embedR with
  | error e => rfl
  | ok u =>
    cases queryR with
    | error e => rfl
    | ok context =>
      by_cases h : context.length > 0
      · cases rerankR with
        | error e =>
          simp only [retrieveContext, retrieveContextBody, eventStatuses,
            if_pos h]
          rfl
        | ok r =>
          simp only [retrieveContext, retrieveContextBody, eventStatuses,
            if_pos h]
          rfl
      · simp only [retrieveContext, retrieveContextBody, eventStatuses,
          if_neg h]
        rfl

/-- C2: For every retrieval session — success, no context, or failure at any
stage — the orchestrator's event list is total (no stage exception escapes
the `catch`/`finally` of `retrieveContext`), and the terminal Done event is
emitted exactly once, as the last event of the session: the session is some
prefix of non-Done events followed by exactly the Done event. -/
theorem retrieveContext_done_exactly_once_last (message : String)
    (embedR : Except String Unit) (queryR : Except String (List String))
    (rerankR : Except String String) :
    ∃ es : List StreamEvent,
      retrieveContext message embedR queryR rerankR =
        es ++ [⟨"Done", "Processing complete for: " ++ message⟩] ∧
      es.all (fun ev => !(ev.status == "Done")) = true := by
  cases embedR with
  | error e =>
    exact ⟨[⟨"Retrieving context", message⟩,
      ⟨"Error", "Error retrieving context: " ++ e⟩], rfl, by simp⟩
  | ok u =>
    cases queryR with
    | error e =>
      exact ⟨[⟨"Retrieving context", message⟩,
        ⟨"Embedding complete", "Message embedding complete for: " ++ message⟩,
        ⟨"Error", "Error retrieving context: " ++ e⟩], rfl, by simp⟩
    | ok context =>
      by_cases h : context.length > 0
      · cases rerankR with
        | error e =>
          refine ⟨[⟨"Retrieving context", message⟩,
            ⟨"Embedding complete", "Message embedding complete for: " ++ message⟩,
            ⟨"Query complete", "Query results retrieved from Pinecone."⟩,
            ⟨"Error", "Error retrieving context: " ++ e⟩], ?_, by simp⟩
          simp only [retrieveContext, retrieveContextBody, if_pos h]
          rfl
        | ok r =>
          refine ⟨[⟨"Retrieving context", message⟩,
            ⟨"Embedding complete", "Message embedding complete for: " ++ message⟩,
            ⟨"Query complete", "Query results retrieved from Pinecone."⟩,
            ⟨"Reranking complete", r⟩], ?_, by simp⟩
          simp only [retrieveContext, retrieveContextBody, if_pos h]
      · refine ⟨[⟨"Retrieving context", message⟩,
          ⟨"Embedding complete", "Message embedding complete for: " ++ message⟩,
          ⟨"Query complete", "Query results retrieved from Pinecone."⟩,
          ⟨"No context", "No context found for the message."⟩], ?_, by simp⟩
        simp only [retrieveContext, retrieveContextBody, if_neg h]

/-- The successes collected by the result-processing loop are exactly the
fulfilled values, in order, whatever the loop counter starts at. -/
theorem processEmbeddingResults_fst {E : Type} (i : Nat)
    (rs : List (Except String E)) :
    (processEmbeddingResults i rs).1 = rs.filterMap Except.toOption := by
  induction rs generalizing i with
  | nil => rfl
  | cons r rest ih =>
    cases r with
    | ok v => simp [processEmbeddingResults, Except.toOption, ih]
    | error reason => simp [processEmbeddingResults, Except.toOption, ih]

/-- The failure log produced by the result-processing loop has one entry per
rejected result, carrying that result's position and reason. -/
theorem processEmbeddingResults_snd {E : Type} (i : Nat)
    (rs : List (Except String E)) :
    (processEmbeddingResults i rs).2 =
      (rs.enumFrom i).filterMap (fun p =>
        match p.2 with
        | .error reason => some (chunkFailureLog p.1 reason)
        | .ok _ => none) := by
  induction rs generalizing i with
  | nil => rfl
  | cons r rest ih =>
    cases r with
    | ok v => simp [processEmbeddingResults, List.enumFrom, ih]
    | error reason => simp [processEmbeddingResults, List.enumFrom, ih]

/-- Success count plus failure-log count equals the batch size. -/
theorem processEmbeddingResults_length {E : Type} (i : Nat)
    (rs : List (Except String E)) :
    (processEmbeddingResults i rs).1.length +
      (processEmbeddingResults i rs).2.length = rs.length := by
  induction rs generalizing i with
  | nil => rfl
  | cons r rest ih =>
    have h := ih (i + 1)
    cases r with
    | ok v =>
      simp only [processEmbeddingResults, List.length_cons]
      omega
    | error reason =>
      simp only [processEmbeddingResults, List.length_cons]
      omega

/-- C3: For every batch where any subset of the chunk embedding calls fails,
`embedDocument` returns exactly the embeddings of the chunks that succeeded
— their count being the batch size minus the number of failures — and logs
each failure individually with its 1-based chunk index and its reason; it
returns `.ok` (never raises) for any per-chunk outcome pattern, and raises
exactly the setup error when the batch scheduling/setup itself throws. -/
theorem embedDocument_partial_failure_isolation {E : Type}
    (results : List (Except String E)) (setupError : String) :
    embedDocument (Except.ok results) =
      Except.ok (results.filterMap Except.toOption,
        (results.enum).filterMap (fun p =>
          match p.2 with
          | .error reason => some (chunkFailureLog p.1 reason)
          | .ok _ => none)) ∧
    (results.filterMap Except.toOption).length =
      results.length -
        ((results.enum).filterMap (fun p =>
          match p.2 with
          | .error reason => some (chunkFailureLog p.1 reason)
          | .ok _ => none)).length ∧
    embedDocument (Except.error setupError) =
      (Except.error setupError : Except String (List E × List String)) := by
  have hfst := processEmbeddingResults_fst 0 results
  have hsnd := processEmbeddingResults_snd 0 results
  have hlen := processEmbeddingResults_length 0 results
  have henum : results.enum = results.enumFrom 0 := rfl
  refine ⟨?_, ?_, rfl⟩
  · show Except.ok (processEmbeddingResults 0 results) = _
    rw [henum, ← hfst, ← hsnd]
  · rw [henum, ← hfst, ← hsnd]
    omega

/-- C4: For every chunk successfully embedded by `embedChunk`, the embedding
id is the ASCII-normalized file name, '#', the file key, '#', and the
1-based chunk index concatenated; the id depends only on the file name, the
file key and the chunk index (not on the user, the chunk content, the
stringifier or the provider response), so two runs of `embedDocument` over
identical input produce identical id lists. -/
theorem embedChunk_id_stable {V W : Type}
    (stringify1 stringify2 : JsValue → String) (file : FileInfo)
    (userId1 userId2 : String) (chunk1 chunk2 : ParsedElement) (index : Nat)
    (resp1 : V) (resp2 : W) :
    (embedChunk stringify1 file userId1 chunk1 index resp1).id =
      toAscii file.name ++ "#" ++ file.key ++ "#" ++ toString (index + 1) ∧
    (embedChunk stringify1 file userId1 chunk1 index resp1).id =
      (embedChunk stringify2 file userId2 chunk2 index resp2).id ∧
    (∀ (chunks : List ParsedElement) (resps1 : Nat → V) (resps2 : Nat → W),
      (chunks.enum).map
          (fun p => (embedChunk stringify1 file userId1 p.2 p.1 (resps1 p.1)).id) =
        (chunks.enum).map
          (fun p => (embedChunk stringify2 file userId2 p.2 p.1 (resps2 p.1)).id)) :=
  ⟨rfl, rfl, fun _ _ _ => rfl⟩

/-- C5: evaluation of `deleteFromVectorDb` at the failing input. A delete
call carrying only a document name sends a filter whose `must` list contains
BOTH a name condition and a url condition (the latter with an undefined
value), so a point whose payload name matches but whose url does not match
the undefined value is NOT selected for deletion — the code does not treat
name and url as independent optional filters. The half of the claim about
calls carrying neither identifier does hold: they fail with the validation
error before any network call. -/
theorem deleteFromVectorDb_requires_both_filters :
    deleteFromVectorDb (some "doc.pdf") none =
      DeleteOutcome.networkDelete
        ⟨[QdrantCondition.matchValue "name" (some "doc.pdf"),
          QdrantCondition.matchValue "url" none]⟩ ∧
    conditionMatches ⟨[("name", "doc.pdf"), ("url", "http://example.com/a")]⟩
      (QdrantCondition.matchValue "name" (some "doc.pdf")) = true ∧
    filterMatches ⟨[("name", "doc.pdf"), ("url", "http://example.com/a")]⟩
      ⟨[QdrantCondition.matchValue "name" (some "doc.pdf"),
        QdrantCondition.matchValue "url" none]⟩ = false ∧
    deleteFromVectorDb none none =
      DeleteOutcome.validationError "No filename or URL provided for deletion." := by
  refine ⟨?_, by decide, by decide, ?_⟩ <;> decide

/-- C6: For every chunk metadata mapping, `transformObjectValues` produces a
flat structure: an entry whose value is a nested object is flattened into
the list of `innerKey:stringifiedValue` strings over its entries, and an
entry whose value is primitive (not object-like) passes through unchanged. -/
theorem transformObjectValues_flattens (stringify : JsValue → String)
    (m : List (String × JsValue)) (k : String) (v : JsValue)
    (h : (k, v) ∈ m) :
    (v.isObjectLike = false → (k, v) ∈ transformObjectValues stringify m) ∧
    (∀ es : List (String × JsValue), v = JsValue.obj es →
      (k, JsValue.arr (es.map fun p => JsValue.str (p.1 ++ ":" ++ stringify p.2)))
        ∈ transformObjectValues stringify m) := by
  constructor
  · intro hprim
    have h2 := List.mem_map_of_mem
      (fun kv : String × JsValue =>
        if kv.2.isObjectLike then
          (kv.1, JsValue.arr ((kv.2.entries).map fun p =>
            JsValue.str (p.1 ++ ":" ++ stringify p.2)))
        else kv) h
    simpa [transformObjectValues, hprim] using h2
  · rintro es rfl
    have h2 := List.mem_map_of_mem
      (fun kv : String × JsValue =>
        if kv.2.isObjectLike then
          (kv.1, JsValue.arr ((kv.2.entries).map fun p =>
            JsValue.str (p.1 ++ ":" ++ stringify p.2)))
        else kv) h
    simpa [transformObjectValues, JsValue.isObjectLike, JsValue.entries] using h2

/-- C6 witness: on the concrete mapping
`[a ↦ "x", b ↦ {p ↦ 1}]` the primitive entry `a` passes through unchanged
and the nested object under `b` is flattened to its stringified pairs. -/
theorem transformObjectValues_flattens_witness :
    (("a", JsValue.str "x") ∈ transformObjectValues (fun _ => "1")
      [("a", JsValue.str "x"), ("b", JsValue.obj [("p", JsValue.num 1)])]) ∧
    (("b", JsValue.arr [JsValue.str ("p" ++ ":" ++ "1")]) ∈
      transformObjectValues (fun _ => "1")
        [("a", JsValue.str "x"), ("b", JsValue.obj [("p", JsValue.num 1)])]) := by
  constructor
  · exact (transformObjectValues_flattens (fun _ => "1")
      [("a", JsValue.str "x"), ("b", JsValue.obj [("p", JsValue.num 1)])]
      "a" (JsValue.str "x") (List.mem_cons_self _ _)).1 rfl
  · exact (transformObjectValues_flattens (fun _ => "1")
      [("a", JsValue.str "x"), ("b", JsValue.obj [("p", JsValue.num 1)])]
      "b" (JsValue.obj [("p", JsValue.num 1)])
      (List.mem_cons_of_mem _ (List.mem_cons_self _ _))).2
      [("p", JsValue.num 1)] rfl

/-- C7: Every call to the Qdrant provider's similarity query fails with the
not-implemented error; no call ever returns a result, so the failure is
distinguishable from an empty result set. -/
theorem query_always_not_implemented (userId : String)
    (embeddingsLength topK : Nat) :
    query userId embeddingsLength topK =
      Except.error "query function is not implemented" ∧
    (query userId embeddingsLength topK).toOption = none :=
  ⟨rfl, rfl⟩

/-- C8 counterexample: the claim says every embedding call passes through
one shared rate-limiter gate, but the `embedMessage` call for user `u1` and
message `What is the refund policy?` issues its provider call directly,
through no rate-limiter gate at all. -/
theorem embedMessage_bypasses_limiter_counterexample :
    embedMessageSteps "1/1/2024, 10:00:00 AM" "u1" "What is the refund policy?" =
      [EmbedStep.providerCall (messageToEmbed "1/1/2024, 10:00:00 AM" "u1"
        "What is the refund policy?")] ∧
    passesThroughGate (embedMessageSteps "1/1/2024, 10:00:00 AM" "u1"
      "What is the refund policy?") = false :=
  ⟨rfl, rfl⟩

/-- C8 (amended): every chunk embedding call of an `embedDocument`
invocation passes through the rate-limiter gate of that invocation's own
Bottleneck instance — configured with a reservoir of 5000 permits refilled
in full every 60000 ms, a 12 ms minimum spacing between dispatches, and a
concurrency ceiling of 50 — before its provider call; the `embedMessage`
path passes through no rate-limiter gate. -/
theorem embedDocument_chunk_calls_gated (limiterId : Nat)
    (chunkTexts : List String) (t : String) (h : t ∈ chunkTexts)
    (dateStr userId content : String) :
    embedChunkSteps limiterId t ∈ embedDocumentSteps limiterId chunkTexts ∧
    embedChunkSteps limiterId t =
      [EmbedStep.limiterGate limiterId 5000 5000 60000 12 50,
       EmbedStep.providerCall t] ∧
    passesThroughGate (embedChunkSteps limiterId t) = true ∧
    passesThroughGate (embedMessageSteps dateStr userId content) = false :=
  ⟨List.mem_map_of_mem _ h, rfl, rfl, rfl⟩

/-- C8 witness: the gating facts at a concrete invocation (limiter instance
7, chunks `c1`, `c2`) and a concrete message embed. -/
theorem embedDocument_chunk_calls_gated_witness :
    ("c1" ∈ ["c1", "c2"]) ∧
    embedChunkSteps 7 "c1" ∈ embedDocumentSteps 7 ["c1", "c2"] ∧
    embedChunkSteps 7 "c1" =
      [EmbedStep.limiterGate 7 5000 5000 60000 12 50,
       EmbedStep.providerCall "c1"] ∧
    passesThroughGate (embedChunkSteps 7 "c1") = true ∧
    passesThroughGate (embedMessageSteps "1/1/2024" "u1" "hi") = false := by
  have h : ("c1" : String) ∈ ["c1", "c2"] := List.mem_cons_self _ _
  exact ⟨h, embedDocument_chunk_calls_gated 7 ["c1", "c2"] "c1" h "1/1/2024" "u1" "hi"⟩

/-- C9 counterexample: the claim says every embedding call carries its own
15-second timeout with its own cancellation token, but the `embedMessage`
call sets up no timeout and no abort controller at all. -/
theorem embedMessage_no_timeout_counterexample :
    embedMessagePlan.timeoutMs = none ∧
    (embedMessagePlan.timeoutMs == some 15000) = false ∧
    embedMessagePlan.controllerId = none :=
  ⟨rfl, rfl, rfl⟩

/-- C9 (amended): every chunk embedding call inside `embedDocument` carries
its own independent 15000 ms timeout tied to its own per-call abort
controller (two distinct chunk calls own distinct controllers, so cancelling
one does not affect siblings); on expiry the call fails with the AbortError
branch, logged distinctly from provider-reported errors; the `embedMessage`
call carries no timeout. -/
theorem embedChunk_timeout_independence (i j : Nat) (h : i ≠ j)
    (fileName : String) (te pe : JsError)
    (hte : te.name = "AbortError") (hpe : pe.name ≠ "AbortError") :
    (embedChunkPlan i).timeoutMs = some 15000 ∧
    (embedChunkPlan i).controllerId = some i ∧
    (embedChunkPlan i).controllerId ≠ (embedChunkPlan j).controllerId ∧
    chunkErrorLog fileName i te =
      "Embedding request for chunk " ++ toString (i + 1) ++ " timed out." ∧
    chunkErrorLog fileName j pe =
      "Failed to embed chunk " ++ toString (j + 1) ++ " for file: " ++
        fileName ++ ". Error: " ++ pe.message ∧
    chunkErrorLog fileName i te ≠ chunkErrorLog fileName j pe ∧
    embedMessagePlan.timeoutMs = none := by
  have hlog1 : chunkErrorLog fileName i te =
      "Embedding request for chunk " ++ toString (i + 1) ++ " timed out." := by
    simp [chunkErrorLog, hte]
  have hlog2 : chunkErrorLog fileName j pe =
      "Failed to embed chunk " ++ toString (j + 1) ++ " for file: " ++
        fileName ++ ". Error: " ++ pe.message := by
    simp [chunkErrorLog, hpe]
  refine ⟨rfl, rfl, by simpa [embedChunkPlan] using h, hlog1, hlog2, ?_, rfl⟩
  intro heq
  have h1 : firstChar (chunkErrorLog fileName i te) = some 'E' := by
    rw [hlog1, firstChar_append, firstChar_append]
    rfl
  have h2 : firstChar (chunkErrorLog fileName j pe) = some 'F' := by
    rw [hlog2, firstChar_append, firstChar_append, firstChar_append,
      firstChar_append]
    rfl
  rw [heq, h2] at h1
  exact Option.noConfusion h1 (fun hc => absurd hc (by decide))

/-- C9 witness: the timeout and independence facts at chunk indices 0 and 1,
a concrete abort error and a concrete provider error. -/
theorem embedChunk_timeout_independence_witness :
    (embedChunkPlan 0).timeoutMs = some 15000 ∧
    (embedChunkPlan 0).controllerId = some 0 ∧
    ((embedChunkPlan 0).controllerId == (embedChunkPlan 1).controllerId) = false ∧
    chunkErrorLog "doc.pdf" 0 ⟨"AbortError", "The user aborted a request."⟩ =
      "Embedding request for chunk " ++ toString (0 + 1) ++ " timed out." ∧
    chunkErrorLog "doc.pdf" 1 ⟨"Error", "boom"⟩ =
      "Failed to embed chunk " ++ toString (1 + 1) ++ " for file: " ++
        "doc.pdf" ++ ". Error: " ++ "boom" ∧
    (chunkErrorLog "doc.pdf" 0 ⟨"AbortError", "The user aborted a request."⟩ ==
      chunkErrorLog "doc.pdf" 1 ⟨"Error", "boom"⟩) = false ∧
    embedMessagePlan.timeoutMs = none := by
  have hth := embedChunk_timeout_independence 0 1 (by decide) "doc.pdf"
    ⟨"AbortError", "The user aborted a request."⟩ ⟨"Error", "boom"⟩ rfl
    (by decide)
  exact ⟨hth.1, hth.2.1, beq_eq_false_iff_ne.mpr hth.2.2.1, hth.2.2.2.1,
    hth.2.2.2.2.1, beq_eq_false_iff_ne.mpr hth.2.2.2.2.2.1, hth.2.2.2.2.2.2⟩

/-- C10: For every successful call, `embedMessage` returns exactly an object
with an `id` field — the freshly generated random UUID, so two calls
receiving distinct fresh UUIDs return different ids even for the same user
and message — and a `values` field, with no metadata field (the
`MessageEmbedding` record has no other field); and the text sent to the
provider is the composite string of the current date/time, the user id and
the message, which is never the message alone. -/
theorem embedMessage_fresh_id_composite_input {V : Type}
    (uuid1 uuid2 dateStr1 dateStr2 userId content : String)
    (provider : String → V) (h : uuid1 ≠ uuid2) :
    embedMessage uuid1 dateStr1 userId content provider =
      { id := uuid1
        values := provider ("Date: " ++ dateStr1 ++ ". User: " ++ userId ++
          ". Message: " ++ content ++ ". Metadata: " ++ "") } ∧
    (embedMessage uuid1 dateStr1 userId content provider).id ≠
      (embedMessage uuid2 dateStr2 userId content provider).id ∧
    (messageToEmbed dateStr1 userId content).length =
      dateStr1.length + userId.length + content.length + 37 ∧
    messageToEmbed dateStr1 userId content ≠ content := by
  have hlen : (messageToEmbed dateStr1 userId content).length =
      dateStr1.length + userId.length + content.length + 37 := by
    have h1 : ("Date: " : String).length = 6 := rfl
    have h2 : (". User: " : String).length = 8 := rfl
    have h3 : (". Message: " : String).length = 11 := rfl
    have h4 : (". Metadata: " : String).length = 12 := rfl
    have h5 : ("" : String).length = 0 := rfl
    simp only [messageToEmbed, String.length_append, h1, h2, h3, h4, h5]
    omega
  refine ⟨rfl, h, hlen, ?_⟩
  intro heq
  have := congrArg String.length heq
  rw [hlen] at this
  omega

/-- C10 witness: two concrete calls with the same user and message but
distinct fresh UUIDs return different ids. -/
theorem embedMessage_fresh_id_composite_input_witness :
    ("uuid-a" == "uuid-b") = false ∧
    ((embedMessage (V := Nat) "uuid-a" "1/1/2024" "u1" "hello"
        (fun s => s.length)).id ==
      (embedMessage (V := Nat) "uuid-b" "2/2/2024" "u1" "hello"
        (fun s => s.length)).id) = false := by
  have hne : ("uuid-a" : String) ≠ "uuid-b" := by decide
  have hth := embedMessage_fresh_id_composite_input (V := Nat) "uuid-a" "uuid-b"
    "1/1/2024" "2/2/2024" "u1" "hello" (fun s => s.length) hne
  exact ⟨beq_eq_false_iff_ne.mpr hne, beq_eq_false_iff_ne.mpr hth.2.1⟩

end Atlas
